import Mathlib

/-!
Verification of the pipeline-processing core of the axiom-recorder
repository, by a shallow embedding of the relevant Rust source files into
Lean 4.  Machine integers (u8/u32/u64) are modelled as `Nat` with explicit
`% 2^w`, bit operations with `Nat.land`/`Nat.lor`/shifts; fallible code
returns `Except String _`.  Buffers are modelled as `List (Option Nat)`
where `none` is an uninitialized byte (the unsafe `get_uninit_cpu_buffer`).

Modules `frame.rs`, `buffers.rs`, `payload.rs`, `node.rs` of the repository
are not part of the provided sources (only their callers are); the
definitions for those are modelled from the specification and marked
`Modelled from the spec:` in their doc comments.  Everything else is
translated directly from the given source files, chiefly
`pipeline_processing/processing_context.rs`, `nodes_cpu/bitdepth_convert.rs`,
`nodes_io/reader_cinema_dng.rs` and `nodes_gpu/histogram.rs`.
-/

namespace AxiomRecorder

/-- Two to the sixty-fourth, the modulus of the `u64` machine integers. -/
def U64MOD : Nat := 2 ^ 64

namespace Priority

/-- The mask constant exactly as written in the source
(`processing_context.rs` line 51): `const MASK: u64 = 0x0fff_ffff_ffff_ffff`.
Note this is a 60-bit mask, although the comment above the struct reads
`[u8 output priority, u56 frame number]`. -/
def MASK : Nat := 0x0fffffffffffffff

/-- The complement `!MASK` on 64 bits. -/
def NOT_MASK : Nat := (U64MOD - 1) - MASK

/-- `Priority::new(output_priority: u8, frame_number: u64)`:
`((output_priority as u64) << 56) | (frame_number & MASK)`.  The `u8`
argument is reduced `% 2^8`, the `u64` argument `% 2^64`, modelling the
machine-integer domains. -/
def new (output_priority frame_number : Nat) : Nat :=
  ((output_priority % 2 ^ 8) <<< 56) ||| ((frame_number % U64MOD) &&& MASK)

/-- `Priority::for_frame(self, frame_number)`:
`(self.0 & !MASK) | (frame_number & MASK)`. -/
def for_frame (p frame_number : Nat) : Nat :=
  (p &&& NOT_MASK) ||| ((frame_number % U64MOD) &&& MASK)

/-- `Priority::get_frame(&self)`: `self.0 & MASK`. -/
def get_frame (p : Nat) : Nat := p &&& MASK

/-- The output-priority byte as it is read back by the `Display`
implementation (`self.0 >> 56`). -/
def output_byte (p : Nat) : Nat := p >>> 56

end Priority

/-- Modelled from the spec: `sample_interpretation ∈ {UInt(bits), FP16, FP32}`
(`frame.rs` is not among the provided sources). -/
inductive SampleInterpretation where
  | UInt (bits : Nat)
  | FP16
  | FP32
  deriving DecidableEq, Repr

/-- Modelled from the spec: `cfa = {red_in_first_col, red_in_first_row}`. -/
structure CfaDescriptor where
  red_in_first_col : Bool
  red_in_first_row : Bool
  deriving DecidableEq, Repr

/-- Modelled from the spec: `color_interpretation ∈ {Bayer(cfa), RGB, Mono,
YCbCr}`. -/
inductive ColorInterpretation where
  | Bayer (cfa : CfaDescriptor)
  | RGB
  | Mono
  | YCbCr
  deriving DecidableEq, Repr

/-- Modelled from the spec: `compression ∈ {Uncompressed}`. -/
inductive Compression where
  | Uncompressed
  deriving DecidableEq, Repr

/-- Modelled from the spec: an interpretation is `{width, height, fps?,
color_interpretation, sample_interpretation, compression}`.  The `fps`
value (an `f64` obtained from a DNG rational tag) is modelled as a
rational. -/
structure FrameInterpretation where
  width : Nat
  height : Nat
  fps : Option Rat
  color_interpretation : ColorInterpretation
  sample_interpretation : SampleInterpretation
  compression : Compression
  deriving DecidableEq, Repr

/-- Modelled from the spec: bits per sample of a sample interpretation
(`UInt(bits)` has `bits`, `FP16` has 16, `FP32` has 32 bits). -/
def SampleInterpretation.bitsPerSample : SampleInterpretation → Nat
  | .UInt bits => bits
  | .FP16 => 16
  | .FP32 => 32

/-- Modelled from the spec: `required_bytes()` is fully determined by the
interpretation and must equal storage length; a buffer holds
`width*height` samples packed at `bitsPerSample` bits each (spec §8
scenario 1: a 4096×3072 `UInt(8)` frame has storage length `4096*3072`
bytes; §4.8: `N` samples packed at `b` bits each). -/
def FrameInterpretation.required_bytes (i : FrameInterpretation) : Nat :=
  i.width * i.height * i.sample_interpretation.bitsPerSample / 8

/-- The number of samples described by an interpretation (one per pixel). -/
def FrameInterpretation.samples (i : FrameInterpretation) : Nat :=
  i.width * i.height

/-- A host (CPU) buffer: a list of bytes, `none` meaning uninitialized. -/
def CpuBuffer := List (Option Nat)

/-- A device (GPU) buffer; its contents are modelled the same way. -/
structure GpuBuffer where
  data : List (Option Nat)
  deriving DecidableEq, Repr

/-- Modelled from the spec: `Frame<S> = {storage, interpretation}`;
this is the host-resident instance `Frame<CpuBuffer>`. -/
structure CpuFrame where
  interpretation : FrameInterpretation
  storage : List (Option Nat)
  deriving DecidableEq, Repr

/-- The device-resident instance `Frame<GpuBuffer>`. -/
structure GpuFrame where
  interpretation : FrameInterpretation
  storage : GpuBuffer
  deriving DecidableEq, Repr

/-- Modelled from the spec: a type-erased payload.  The two frame kinds the
pipeline actually carries are distinguished; every other stored type is
collapsed into `other` carrying its type name, which is all the dispatch
code under verification inspects. -/
inductive Payload where
  | cpuFrame (f : CpuFrame)
  | gpuFrame (f : GpuFrame)
  | other (type_name : String)
  deriving DecidableEq, Repr

/-- Modelled from the spec: `Caps = {frame_count: Option<u64>,
random_access: bool}`. -/
structure Caps where
  frame_count : Option Nat
  random_access : Bool
  deriving DecidableEq, Repr

/-- A Vulkan context: the device and queue handles are opaque; we keep
only identities. -/
structure VulkanContext where
  device : Nat
  queues : List Nat
  deriving DecidableEq, Repr

/-- The processing context, holding the optional GPU context (the reactor
and the tokio runtime play no role in the claims settled here). -/
structure ProcessingContext where
  vulkan_device : Option VulkanContext
  deriving DecidableEq, Repr

/-- `ProcessingContext::require_vulkan`: returns the device and queue list
when a GPU context is present, otherwise the error
`"gpu required but not present"`.  The method takes `&self` and returns
clones, so the context itself is a pure input here. -/
def ProcessingContext.require_vulkan (ctx : ProcessingContext) :
    Except String (Nat × List Nat) :=
  match ctx.vulkan_device with
  | some v => .ok (v.device, v.queues)
  | none => .error "gpu required but not present"

/-- `ProcessingContext::get_uninit_cpu_buffer(len)`: a buffer of `len`
bytes, none of them initialized. -/
def ProcessingContext.get_uninit_cpu_buffer (len : Nat) : List (Option Nat) :=
  List.replicate len none

/-- `ProcessingContext::to_cpu_buffer_frame`: requires Vulkan, allocates an
uninitialized host buffer of the device buffer's size, records and executes
a `copy_buffer` command (modelled as transferring the device bytes), and
returns `Frame {interpretation: frame.interpretation.clone(), storage}`. -/
def ProcessingContext.to_cpu_buffer_frame (ctx : ProcessingContext)
    (frame : GpuFrame) : Except String CpuFrame :=
  match ctx.require_vulkan with
  | .error e => .error e
  | .ok _ =>
    .ok { interpretation := frame.interpretation, storage := frame.storage.data }

/-- `ProcessingContext::ensure_cpu_buffer_frame`: an already host-resident
frame is returned as-is (the same shared handle); a device-resident frame
is transferred; anything else is a wrong-payload-type error. -/
def ProcessingContext.ensure_cpu_buffer_frame (ctx : ProcessingContext)
    (payload : Payload) : Except String CpuFrame :=
  match payload with
  | .cpuFrame f => .ok f
  | .gpuFrame f => ctx.to_cpu_buffer_frame f
  | .other tn =>
    .error ("wanted a frame with type Frame<CpuBuffer>, but the payload was of type " ++ tn)

/-- Rust `u32::wrapping_shl`: the shift amount is reduced `% 32`, the
result truncated to 32 bits. -/
def wrappingShl32 (x s : Nat) : Nat := (x <<< (s % 32)) % 2 ^ 32

/-- Rust `u32::wrapping_shr`: the shift amount is reduced `% 32`. -/
def wrappingShr32 (x s : Nat) : Nat := x >>> (s % 32)

/-- Rust `u8::wrapping_shr`: the shift amount is reduced `% 8`. -/
def wrappingShr8 (x s : Nat) : Nat := x >>> (s % 8)

/-- Rust release-mode `u32` subtraction (two's complement wrap-around). -/
def sub32 (a b : Nat) : Nat := (a % 2 ^ 32 + (2 ^ 32 - b % 2 ^ 32)) % 2 ^ 32

/-- Write `some v` at index `i`, leaving the list unchanged out of bounds
(the Rust indexed store would panic there; no input considered below goes
out of bounds). -/
def listSet : List (Option Nat) → Nat → Nat → List (Option Nat)
  | [], _, _ => []
  | _ :: xs, 0, v => some v :: xs
  | x :: xs, i + 1, v => x :: listSet xs i v

/-- Reading a buffer as the Rust code reads `frame_storage: &[u8]`.  An
uninitialized byte is mapped to 0; the theorems below only ever apply this
to fully initialized buffers. -/
def readBytes (l : List (Option Nat)) : List Nat := l.map (fun o => o.getD 0)

/-- The 12-bit fast path of `BitDepthConverter::pull`:
`frame_storage.chunks_exact(3).zip(new_buffer.chunks_exact_mut(2))`, with
`output[0] = input[0]; output[1] = (input[1] << 4) | (input[2] >> 4)`
(the `u8` shift truncates to 8 bits).  The zip stops as soon as either
side runs out of complete chunks. -/
def unpack12 : List Nat → List (Option Nat) → List (Option Nat)
  | i0 :: i1 :: i2 :: irest, _ :: _ :: orest =>
    some i0 :: some (((i1 <<< 4) % 2 ^ 8) ||| (i2 >>> 4)) :: unpack12 irest orest
  | _, out => out

/-- The running state of the generic unpack loop: the `u32` accumulator
pair `(rest_value, rest_bits)`, the output write position, and the output
buffer. -/
structure GenState where
  rest_value : Nat
  rest_bits : Nat
  pos : Nat
  buf : List (Option Nat)

/-- One iteration of the generic unpack loop of `BitDepthConverter::pull`
(lines 70-89 of `bitdepth_convert.rs`), for one input byte `value`:
`bits_more_than_bit_depth = (rest_bits as i32 + 8) - bits as i32`; when
nonnegative, emit
`(rest_value.wrapping_shl(bits - rest_bits)) | value.wrapping_shr(8 - bits_more)`
shifted down by `bits - 8` when `bits > 8` and truncated to a byte, then
set `rest_bits = bits_more` and `rest_value = value & (2^rest_bits - 1) as u8`;
otherwise accumulate `rest_value = (rest_value << 8) | value` and
`rest_bits += 8`. -/
def genericStep (bits : Nat) (st : GenState) (value : Nat) : GenState :=
  let bits_more : Int := (st.rest_bits : Int) + 8 - (bits : Int)
  if 0 ≤ bits_more then
    let bm := bits_more.toNat
    let new_n_bit_value : Nat :=
      wrappingShl32 st.rest_value (sub32 bits st.rest_bits) |||
        wrappingShr8 value (sub32 8 bm)
    let outv : Nat :=
      (if 8 < bits then wrappingShr32 new_n_bit_value (bits - 8)
       else new_n_bit_value) % 2 ^ 8
    { rest_value := value &&& ((2 ^ bm - 1) % 2 ^ 8)
      rest_bits := bm
      pos := st.pos + 1
      buf := listSet st.buf st.pos outv }
  else
    { st with
      rest_bits := st.rest_bits + 8
      rest_value := ((st.rest_value <<< 8) % 2 ^ 32) ||| (value % 2 ^ 8) }

/-- The generic unpack path: fold the step over the input bytes, starting
from `rest_value = 0`, `rest_bits = 0`, `pos = 0` and the freshly
allocated (uninitialized) output buffer. -/
def unpackGeneric (bits : Nat) (inp : List Nat) (buf : List (Option Nat)) :
    List (Option Nat) :=
  (inp.foldl (genericStep bits) { rest_value := 0, rest_bits := 0, pos := 0, buf := buf }).buf

/-- `BitDepthConverter::pull`, with the upstream pull abstracted as the
already-obtained `input` payload.  The input is coerced to a host frame;
the output interpretation is the input's with `sample_interpretation`
replaced by `UInt(8)`; a buffer of `interpretation.required_bytes()`
uninitialized bytes is allocated.  `UInt(8)` input returns the input
payload itself; `UInt(12)` takes the triplet fast path; any other
`UInt(bits)` takes the generic path; every non-`UInt(8)` case (including
`FP16`/`FP32`, which match none of the `if let` arms and leave the buffer
unwritten) returns a new frame built from the buffer. -/
def BitDepthConverter.pull (ctx : ProcessingContext) (input : Payload) :
    Except String Payload :=
  match ctx.ensure_cpu_buffer_frame input with
  | .error e => .error e
  | .ok frame =>
    let interpretation : FrameInterpretation :=
      { frame.interpretation with sample_interpretation := SampleInterpretation.UInt 8 }
    let new_buffer := ProcessingContext.get_uninit_cpu_buffer interpretation.required_bytes
    match frame.interpretation.sample_interpretation with
    | SampleInterpretation.UInt bits =>
      if bits = 8 then
        .ok input
      else if bits = 12 then
        .ok (Payload.cpuFrame
          { interpretation := interpretation
            storage := unpack12 (readBytes frame.storage) new_buffer })
      else
        .ok (Payload.cpuFrame
          { interpretation := interpretation
            storage := unpackGeneric bits (readBytes frame.storage) new_buffer })
    | _ =>
      .ok (Payload.cpuFrame { interpretation := interpretation, storage := new_buffer })

/-- `Histogram::pull`, with the upstream pull and the GPU residency
coercion abstracted as the already device-resident input `frame`.  The
sink buffer is a device-local allocation of `(1 << 8) * 4` bytes, filled
with zeroes by the recorded `fill_buffer` command before the dispatch; the
emitted frame carries the input interpretation with `width := 4096`,
`height := 1`, `sample_interpretation := FP32`.  (The histogram dispatch
itself only increments bin counters inside the sink buffer and cannot
change its size.) -/
def Histogram.pull (frame : GpuFrame) : GpuFrame :=
  { interpretation :=
      { frame.interpretation with
        width := 4096
        height := 1
        sample_interpretation := SampleInterpretation.FP32 }
    storage := { data := List.replicate ((2 ^ 8) * 4) (some 0) } }

/-- The construction-time state of `CinemaDngReader`: the sorted file list
from the glob expansion and the two optional flags. -/
structure CinemaDngReader where
  files : List String
  cache_frames : Bool
  internal_loop : Bool
  deriving DecidableEq, Repr

/-- The frame-number resolution of `CinemaDngReader::pull` (lines 66-76):
with `internal-loop` the number is reduced modulo the file count, then
bounds-checked against the file count. -/
def CinemaDngReader.resolve (r : CinemaDngReader) (frame_number : Nat) :
    Except String Nat :=
  let n := if r.internal_loop then frame_number % r.files.length else frame_number
  if n < r.files.length then .ok n
  else .error "frame was requested but this stream only has a length of the file count"

/-- `CinemaDngReader::pull`, with the DNG file open/parse/read abstracted
as the deterministic function `read` from the file path to the resulting
payload: the pull resolves the frame number and returns the payload read
from the file at the resolved index. -/
def CinemaDngReader.pull (r : CinemaDngReader) (read : String → Payload)
    (frame_number : Nat) : Except String Payload :=
  match r.resolve frame_number with
  | .error e => .error e
  | .ok n => .ok (read (r.files.getD n ""))

/-- `CinemaDngReader::get_caps`: `frame_count` is `None` with
`internal-loop` and `Some(files.len())` otherwise; `random_access` is
always true. -/
def CinemaDngReader.get_caps (r : CinemaDngReader) : Caps :=
  { frame_count := if r.internal_loop then none else some r.files.length
    random_access := true }

/-- The sample-interpretation construction of `CinemaDngReader::pull`
(lines 128-145): `SampleFormat 1` gives `UInt(bits_per_sample as u8)`;
`SampleFormat 3` gives `FP16` for 16 bits, `FP32` for 32 bits, and a
format error otherwise; any other `SampleFormat` is an error. -/
def sampleInterpretationOfTags (sample_format bits_per_sample : Nat) :
    Except String SampleInterpretation :=
  if sample_format = 1 then
    .ok (SampleInterpretation.UInt (bits_per_sample % 2 ^ 8))
  else if sample_format = 3 then
    if bits_per_sample = 16 then .ok SampleInterpretation.FP16
    else if bits_per_sample = 32 then .ok SampleInterpretation.FP32
    else .error "DNG is IEEE float with this bits_per_sample. This is unsupported"
  else .error "Unknown SampleFormat"

/-- A 4×1 monochrome frame of four 10-bit samples packed into the five
bytes `0xFF 0xFF 0xFF 0xFF 0xFF` (spec §8 scenario 5). -/
def uint10AllOnes : CpuFrame :=
  { interpretation :=
      { width := 4, height := 1, fps := none
        color_interpretation := ColorInterpretation.Mono
        sample_interpretation := SampleInterpretation.UInt 10
        compression := Compression.Uncompressed }
    storage := [some 255, some 255, some 255, some 255, some 255] }

/-- A minimal well-formed host frame: 1×1, `UInt(8)`, one initialized
byte. -/
def sampleHostFrame : CpuFrame :=
  { interpretation :=
      { width := 1, height := 1, fps := none
        color_interpretation := ColorInterpretation.Mono
        sample_interpretation := SampleInterpretation.UInt 8
        compression := Compression.Uncompressed }
    storage := [some 7] }

/-- A minimal device frame: 1×1, `UInt(8)`, one byte. -/
def sampleGpuFrame : GpuFrame :=
  { interpretation :=
      { width := 1, height := 1, fps := none
        color_interpretation := ColorInterpretation.Mono
        sample_interpretation := SampleInterpretation.UInt 8
        compression := Compression.Uncompressed }
    storage := { data := [some 9] } }

/-- A 2×1 `FP16` host frame (four initialized bytes). -/
def fp16Frame : CpuFrame :=
  { interpretation :=
      { width := 2, height := 1, fps := none
        color_interpretation := ColorInterpretation.Mono
        sample_interpretation := SampleInterpretation.FP16
        compression := Compression.Uncompressed }
    storage := [some 0, some 0, some 0, some 0] }

/-- A Cinema DNG reader over three files with `internal-loop` set. -/
def loopReader : CinemaDngReader :=
  { files := ["a", "b", "c"], cache_frames := false, internal_loop := true }

/-- Byte length of the storage carried by a payload (0 for a non-frame
payload). -/
def payloadStorageLen : Payload → Nat
  | .cpuFrame f => f.storage.length
  | .gpuFrame f => f.storage.data.length
  | .other _ => 0

/-- Overwriting one slot of a buffer keeps its length. -/
theorem listSet_length (l : List (Option Nat)) (i v : Nat) :
    (listSet l i v).length = l.length := by
  induction l generalizing i with
  | nil => rfl
  | cons x xs ih =>
    cases i with
    | zero => rfl
    | succ n => simp [listSet, ih]

/-- One step of the generic unpack loop keeps the output-buffer length. -/
theorem genericStep_buf_length (bits : Nat) (st : GenState) (v : Nat) :
    ((genericStep bits st v).buf).length = st.buf.length := by
  unfold genericStep
  by_cases h : (0 : Int) ≤ (st.rest_bits : Int) + 8 - (bits : Int) <;>
    by_cases h2 : 8 < bits <;>
    simp [h, h2, listSet_length]

/-- Folding the generic unpack loop keeps the output-buffer length. -/
theorem foldl_genericStep_length (bits : Nat) (inp : List Nat) :
    ∀ st : GenState, ((inp.foldl (genericStep bits) st).buf).length = st.buf.length := by
  induction inp with
  | nil => intro st; rfl
  | cons v vs ih => intro st; rw [List.foldl_cons, ih, genericStep_buf_length]

/-- The generic unpack path returns a buffer of the allocated length. -/
theorem unpackGeneric_length (bits : Nat) (inp : List Nat) (buf : List (Option Nat)) :
    (unpackGeneric bits inp buf).length = buf.length := by
  unfold unpackGeneric
  exact foldl_genericStep_length bits inp _

/-- The 12-bit fast path returns a buffer of the allocated length. -/
theorem unpack12_length (inp : List Nat) (buf : List (Option Nat)) :
    (unpack12 inp buf).length = buf.length := by
  induction inp, buf using unpack12.induct with
  | case1 i0 i1 i2 irest o0 o1 orest ih => simp [unpack12, ih]
  | case2 inp buf h => simp [unpack12]

/-- Dividing `m * 8` by 8 gives back `m` (used for `required_bytes` of a
`UInt(8)` interpretation). -/
theorem mul_eight_div_eight (m : Nat) : m * 8 / 8 = m := by omega

/-- C1: the claim states that `for_frame` preserves the output-priority
byte (the upper 8 bits) and wraps large frame numbers into the 56-bit
frame field.  The source constant `MASK` is however `0x0fff_ffff_ffff_ffff`
(60 bits), contradicting the comment `[u8 output priority, u56 frame
number]` above the struct: rewriting the frame number of
`Priority::new(255, 0)` to `2^56` clobbers the output-priority byte (it
becomes `0xf1` instead of `0xff`), and `get_frame` returns `2^56` instead
of a value wrapped into 56 bits. -/
theorem priority_mask_code_bug :
    Priority.for_frame (Priority.new 255 0) (2 ^ 56) = 0xf100000000000000 ∧
    Priority.output_byte (Priority.for_frame (Priority.new 255 0) (2 ^ 56)) = 0xf1 ∧
    Priority.get_frame (Priority.for_frame (Priority.new 255 0) (2 ^ 56)) = 2 ^ 56 := by
  decide

/-- C2: the claim states that unpacking bit depth 10 from the five input
bytes `0xFF 0xFF 0xFF 0xFF 0xFF` yields `0xFF 0xFF 0xFF 0xFF`.  Evaluating
the source's generic unpack loop on exactly that input instead yields
`0xFF 0xFF 0xF0 0xFF`: the loop's shift expression
`value.wrapping_shr(8 - bits_more_than_bit_depth)` takes the wrong bits of
the input byte whenever `bits_more_than_bit_depth ∉ {0, 4}`. -/
theorem bitdepth10_all_ones_eval :
    BitDepthConverter.pull ⟨none⟩ (Payload.cpuFrame uint10AllOnes) =
      Except.ok (Payload.cpuFrame
        { interpretation :=
            { uint10AllOnes.interpretation with
              sample_interpretation := SampleInterpretation.UInt 8 }
          storage := [some 255, some 255, some 240, some 255] }) ∧
    [some 255, some 255, some 240, some 255] ≠
      [some (255 : Nat), some 255, some 255, some 255] := by
  exact ⟨rfl, by decide⟩

/-- C3: the claim states that every frame produced by a node satisfies
`storage.len() == interpretation.required_bytes()`, in particular the
Histogram output.  The Histogram node however emits a sink buffer of
`(1 << 8) * 4 = 1024` bytes labelled with interpretation `4096×1 FP32`,
whose required byte count is `4096 * 1 * 32 / 8 = 16384`: the invariant is
violated for every input frame. -/
theorem histogram_breaks_required_bytes (f : GpuFrame) :
    (Histogram.pull f).storage.data.length ≠
      (Histogram.pull f).interpretation.required_bytes := by
  simp only [Histogram.pull, FrameInterpretation.required_bytes,
    SampleInterpretation.bitsPerSample, List.length_replicate]
  decide

/-- C4: for every input frame with sample interpretation `UInt(b)` whose
storage length equals its `required_bytes`, the bit-depth unpack is
length-exact (the produced payload carries one byte per input sample,
`width * height` in total), and for `b = 8` the pull returns the input
payload itself, unchanged. -/
theorem bitdepth_length_exact (ctx : ProcessingContext) (f : CpuFrame) (b : Nat)
    (hb : f.interpretation.sample_interpretation = SampleInterpretation.UInt b)
    (hlen : f.storage.length = f.interpretation.required_bytes) :
    (BitDepthConverter.pull ctx (Payload.cpuFrame f)).toOption.map payloadStorageLen =
      some f.interpretation.samples ∧
    (b = 8 → BitDepthConverter.pull ctx (Payload.cpuFrame f) =
      Except.ok (Payload.cpuFrame f)) := by
  by_cases h8 : b = 8
  · have key : BitDepthConverter.pull ctx (Payload.cpuFrame f) =
        Except.ok (Payload.cpuFrame f) := by
      simp [BitDepthConverter.pull, ProcessingContext.ensure_cpu_buffer_frame, hb, h8]
    refine ⟨?_, fun _ => key⟩
    rw [key]
    dsimp only [Except.toOption, Option.map, payloadStorageLen]
    simp [hlen, FrameInterpretation.required_bytes, FrameInterpretation.samples,
      hb, h8, SampleInterpretation.bitsPerSample, mul_eight_div_eight]
  · by_cases h12 : b = 12
    · have key : BitDepthConverter.pull ctx (Payload.cpuFrame f) =
          Except.ok (Payload.cpuFrame
            { interpretation :=
                { f.interpretation with
                  sample_interpretation := SampleInterpretation.UInt 8 }
              storage := unpack12 (readBytes f.storage)
                (ProcessingContext.get_uninit_cpu_buffer
                  ({ f.interpretation with
                      sample_interpretation := SampleInterpretation.UInt 8 } :
                    FrameInterpretation).required_bytes) }) := by
        simp [BitDepthConverter.pull, ProcessingContext.ensure_cpu_buffer_frame, hb, h8, h12]
      refine ⟨?_, fun hc => absurd hc h8⟩
      rw [key]
      dsimp only [Except.toOption, Option.map, payloadStorageLen]
      simp [unpack12_length, ProcessingContext.get_uninit_cpu_buffer,
        FrameInterpretation.required_bytes, FrameInterpretation.samples,
        SampleInterpretation.bitsPerSample, mul_eight_div_eight]
    · have key : BitDepthConverter.pull ctx (Payload.cpuFrame f) =
          Except.ok (Payload.cpuFrame
            { interpretation :=
                { f.interpretation with
                  sample_interpretation := SampleInterpretation.UInt 8 }
              storage := unpackGeneric b (readBytes f.storage)
                (ProcessingContext.get_uninit_cpu_buffer
                  ({ f.interpretation with
                      sample_interpretation := SampleInterpretation.UInt 8 } :
                    FrameInterpretation).required_bytes) }) := by
        simp [BitDepthConverter.pull, ProcessingContext.ensure_cpu_buffer_frame, hb, h8, h12]
      refine ⟨?_, fun hc => absurd hc h8⟩
      rw [key]
      dsimp only [Except.toOption, Option.map, payloadStorageLen]
      simp [unpackGeneric_length, ProcessingContext.get_uninit_cpu_buffer,
        FrameInterpretation.required_bytes, FrameInterpretation.samples,
        SampleInterpretation.bitsPerSample, mul_eight_div_eight]

/-- C4 witness: the theorem applied to the concrete 1×1 `UInt(8)` host
frame. -/
theorem bitdepth_length_exact_witness :
    (BitDepthConverter.pull ⟨none⟩ (Payload.cpuFrame sampleHostFrame)).toOption.map
        payloadStorageLen = some sampleHostFrame.interpretation.samples ∧
    (8 = 8 → BitDepthConverter.pull ⟨none⟩ (Payload.cpuFrame sampleHostFrame) =
      Except.ok (Payload.cpuFrame sampleHostFrame)) :=
  bitdepth_length_exact ⟨none⟩ sampleHostFrame 8 rfl (by decide)

/-- C5: residency coercion to host is idempotent: whenever
`ensure_cpu_buffer_frame` succeeds with frame `f`, applying it again to a
payload wrapping `f` returns exactly `f`; and when the payload already
held a host frame, that frame itself is what was returned. -/
theorem ensure_cpu_idempotent (ctx : ProcessingContext) (p : Payload) (f : CpuFrame)
    (h : ctx.ensure_cpu_buffer_frame p = Except.ok f) :
    ctx.ensure_cpu_buffer_frame (Payload.cpuFrame f) = Except.ok f ∧
    (∀ g : CpuFrame, p = Payload.cpuFrame g → f = g) := by
  refine ⟨rfl, ?_⟩
  intro g hg
  subst hg
  simp [ProcessingContext.ensure_cpu_buffer_frame] at h
  exact h.symm

/-- C5 witness: the theorem applied to a payload that already holds the
concrete host frame. -/
theorem ensure_cpu_idempotent_witness :
    (ProcessingContext.mk none).ensure_cpu_buffer_frame
        (Payload.cpuFrame sampleHostFrame) = Except.ok sampleHostFrame ∧
    sampleHostFrame = sampleHostFrame :=
  ⟨(ensure_cpu_idempotent ⟨none⟩ (Payload.cpuFrame sampleHostFrame) sampleHostFrame rfl).1,
   (ensure_cpu_idempotent ⟨none⟩ (Payload.cpuFrame sampleHostFrame) sampleHostFrame rfl).2
      sampleHostFrame rfl⟩

/-- C6: with `internal-loop`, `CinemaDngReader::pull(n)` reads the file at
index `n mod k` (so with 3 files frame 7 gives the same payload as frame
1) and `get_caps` reports `frame_count = None` with `random_access =
true`; without `internal-loop`, `frame_count = Some(k)`. -/
theorem cinema_dng_internal_loop (r : CinemaDngReader) (read : String → Payload)
    (n : Nat) (hk : 0 < r.files.length) :
    (r.internal_loop = true →
      r.pull read n = Except.ok (read (r.files.getD (n % r.files.length) "")) ∧
      (r.files.length = 3 → r.pull read 7 = r.pull read 1) ∧
      r.get_caps = { frame_count := none, random_access := true }) ∧
    (r.internal_loop = false →
      r.get_caps = { frame_count := some r.files.length, random_access := true }) := by
  have hmod : ∀ m : Nat, m % r.files.length < r.files.length := fun m => Nat.mod_lt _ hk
  constructor
  · intro hloop
    refine ⟨?_, ?_, ?_⟩
    · simp [CinemaDngReader.pull, CinemaDngReader.resolve, hloop, hmod n]
    · intro h3
      simp [CinemaDngReader.pull, CinemaDngReader.resolve, hloop, hmod 7, hmod 1, h3]
    · simp [CinemaDngReader.get_caps, hloop]
  · intro hloop
    simp [CinemaDngReader.get_caps, hloop]

/-- C6 witness: the theorem applied to the three-file looping reader,
with its internal implications discharged. -/
theorem cinema_dng_internal_loop_witness :
    loopReader.pull Payload.other 7 =
      Except.ok (Payload.other (loopReader.files.getD (7 % loopReader.files.length) "")) ∧
    loopReader.pull Payload.other 7 = loopReader.pull Payload.other 1 ∧
    loopReader.get_caps = { frame_count := none, random_access := true } := by
  obtain ⟨h1, h2, h3⟩ :=
    (cinema_dng_internal_loop loopReader Payload.other 7 (by decide)).1 rfl
  exact ⟨h1, h2 rfl, h3⟩

/-- C7: whenever the device-to-host transfer `to_cpu_buffer_frame`
succeeds, the returned host frame carries an interpretation identical to
the input frame's interpretation. -/
theorem to_cpu_preserves_interpretation (ctx : ProcessingContext) (f : GpuFrame)
    (g : CpuFrame) (h : ctx.to_cpu_buffer_frame f = Except.ok g) :
    g.interpretation = f.interpretation := by
  cases hv : ctx.vulkan_device with
  | none =>
    simp [ProcessingContext.to_cpu_buffer_frame, ProcessingContext.require_vulkan, hv] at h
  | some v =>
    simp [ProcessingContext.to_cpu_buffer_frame, ProcessingContext.require_vulkan, hv] at h
    subst h
    rfl

/-- C7 witness: the theorem applied to the concrete device frame under a
context with a GPU. -/
theorem to_cpu_preserves_interpretation_witness :
    ({ interpretation := sampleGpuFrame.interpretation,
       storage := sampleGpuFrame.storage.data } : CpuFrame).interpretation =
      sampleGpuFrame.interpretation :=
  to_cpu_preserves_interpretation ⟨some ⟨0, [1]⟩⟩ sampleGpuFrame _ rfl

/-- C8: `require_vulkan` returns the device and queue list when the
context holds a GPU context, and exactly the error message
`"gpu required but not present"` when it does not.  The method takes the
context immutably and returns clones, so the embedding is a pure function
of the context: the context is unchanged in both cases. -/
theorem require_vulkan_spec (ctx : ProcessingContext) :
    (∀ v : VulkanContext, ctx.vulkan_device = some v →
      ctx.require_vulkan = Except.ok (v.device, v.queues)) ∧
    (ctx.vulkan_device = none →
      ctx.require_vulkan = Except.error "gpu required but not present") := by
  constructor
  · intro v hv
    simp [ProcessingContext.require_vulkan, hv]
  · intro hv
    simp [ProcessingContext.require_vulkan, hv]

/-- C8 witness: the theorem applied to a context with a GPU and to one
without. -/
theorem require_vulkan_spec_witness :
    (ProcessingContext.mk (some ⟨0, [1]⟩)).require_vulkan = Except.ok (0, [1]) ∧
    (ProcessingContext.mk none).require_vulkan =
      Except.error "gpu required but not present" :=
  ⟨(require_vulkan_spec ⟨some ⟨0, [1]⟩⟩).1 ⟨0, [1]⟩ rfl,
   (require_vulkan_spec ⟨none⟩).2 rfl⟩

/-- C9: for `SampleFormat = 3` (IEEE float), a `BitsPerSample` that is
neither 16 nor 32 yields a format error (no interpretation, hence no
payload), while 16 and 32 yield `FP16` and `FP32` respectively. -/
theorem dng_float_sample_format (bits : Nat) (h16 : bits ≠ 16) (h32 : bits ≠ 32) :
    (sampleInterpretationOfTags 3 bits).isOk = false ∧
    sampleInterpretationOfTags 3 16 = Except.ok SampleInterpretation.FP16 ∧
    sampleInterpretationOfTags 3 32 = Except.ok SampleInterpretation.FP32 := by
  refine ⟨?_, rfl, rfl⟩
  have herr : sampleInterpretationOfTags 3 bits =
      Except.error "DNG is IEEE float with this bits_per_sample. This is unsupported" := by
    simp [sampleInterpretationOfTags, h16, h32]
  rw [herr]
  rfl

/-- C9 witness: the theorem applied at `BitsPerSample = 24`. -/
theorem dng_float_sample_format_witness :
    (sampleInterpretationOfTags 3 24).isOk = false ∧
    sampleInterpretationOfTags 3 16 = Except.ok SampleInterpretation.FP16 ∧
    sampleInterpretationOfTags 3 32 = Except.ok SampleInterpretation.FP32 :=
  dng_float_sample_format 24 (by decide) (by decide)

/-- C10: for an input frame whose sample interpretation is `FP16` or
`FP32`, `BitDepthConverter::pull` does not fail: it returns a frame
relabelled `UInt(8)` whose buffer was allocated uninitialized and written
by no conversion branch (every byte still `none`); no error branch
exists for such inputs. -/
theorem bitdepth_float_input_uninit (ctx : ProcessingContext) (f : CpuFrame)
    (h : f.interpretation.sample_interpretation = SampleInterpretation.FP16 ∨
      f.interpretation.sample_interpretation = SampleInterpretation.FP32) :
    BitDepthConverter.pull ctx (Payload.cpuFrame f) =
      Except.ok (Payload.cpuFrame
        { interpretation :=
            { f.interpretation with
              sample_interpretation := SampleInterpretation.UInt 8 }
          storage := List.replicate
            ({ f.interpretation with
                sample_interpretation := SampleInterpretation.UInt 8 } :
              FrameInterpretation).required_bytes none }) := by
  rcases h with h | h <;>
    simp [BitDepthConverter.pull, ProcessingContext.ensure_cpu_buffer_frame,
      ProcessingContext.get_uninit_cpu_buffer, h]

/-- C10 witness: the theorem applied to the concrete 2×1 `FP16` frame. -/
theorem bitdepth_float_input_uninit_witness :
    BitDepthConverter.pull ⟨none⟩ (Payload.cpuFrame fp16Frame) =
      Except.ok (Payload.cpuFrame
        { interpretation :=
            { fp16Frame.interpretation with
              sample_interpretation := SampleInterpretation.UInt 8 }
          storage := List.replicate
            ({ fp16Frame.interpretation with
                sample_interpretation := SampleInterpretation.UInt 8 } :
              FrameInterpretation).required_bytes none }) :=
  bitdepth_float_input_uninit ⟨none⟩ fp16Frame (Or.inl rfl)

end AxiomRecorder
